import Mathlib

/-!
Shallow embedding of the bootable-drive provisioning pipeline of
src/modules/bootable_creator.py and the checksum operation of
src/modules/iso_handler.py.

Subprocess-driven behaviour is modelled by an explicit environment `Env`
describing what the external world (filesystem, PATH lookups, tool runs)
would answer; each Python method becomes a pure Lean function from that
environment to the trace of observable events (progress-callback calls,
stage invocations, process spawns) together with its outcome.  Exceptions
become an explicit error type `Err` with one constructor per raise site.
-/

namespace BootableCreator

/-- Identifier of one of the four pipeline stages, in pipeline order. -/
inductive StageId where
  | prepare
  | writeImage
  | configurePersistence
  | installBootloader
  deriving DecidableEq, Repr

/-- Errors, one constructor per raise site in the source (plus
`stageFail`, used only to simulate a failing platform-strategy stage when
a claim quantifies over stage failures that the placeholder stage bodies
in the source can never produce; its diagnostic text models the
underlying tool output carried verbatim).
`isoNotFound` is the FileNotFoundError raised by create_bootable_drive
input validation; `fileNotFound` the one raised by
ISOHandler.calculate_checksum; `execNotFound` the FileNotFoundError the
interpreter raises when subprocess tries to launch a binary absent from
PATH; `toolMissing` the EnvironmentError of _write_iso_linux;
`diskpartFailed` and `diskUnresolved` the RuntimeErrors of
_prepare_drive_windows and _get_windows_disk_number; `ddFailed` the
RuntimeError of _write_iso_linux; `unsupportedOS` the
NotImplementedError of the platform dispatchers. -/
inductive Err where
  | isoNotFound (path : String)
  | fileNotFound (path : String)
  | execNotFound (tool : String)
  | toolMissing (tool : String)
  | diskpartFailed (stderr : String)
  | diskUnresolved (path : String)
  | ddFailed (stderr : String)
  | unsupportedOS (name : String)
  | stageFail (s : StageId) (diag : String)
  deriving DecidableEq, Repr

/-- Result of Python str(e) on each exception, as formatted at its raise
site (for `execNotFound` we keep the strerror part of the interpreter
message; for `stageFail` the simulated tool diagnostic is the message). -/
def Err.str : Err → String
  | .isoNotFound p => "ISO file not found: " ++ p
  | .fileNotFound p => "File not found: " ++ p
  | .execNotFound t => "No such file or directory: " ++ t
  | .toolMissing t => t ++ " is not installed. Please install it to continue."
  | .diskpartFailed s => "Failed to prepare drive: " ++ s
  | .diskUnresolved p => "Could not determine disk number for " ++ p
  | .ddFailed s => "Failed to write ISO to drive: " ++ s
  | .unsupportedOS n => "Unsupported operating system: " ++ n
  | .stageFail _ d => d

/-- Spec-side error taxonomy of spec section 7. -/
inductive SpecError where
  | validationError
  | deviceResolutionError
  | toolUnavailableError
  | permissionError
  | partitionError
  | copyFailedError
  | persistenceSetupError
  | bootloaderError
  | unsupportedPlatformError
  deriving DecidableEq, Repr

/-- Refinement mapping from the concrete raise sites to the spec's error
taxonomy, following the spec's own glosses: bad input (missing image) is
a validation error, a tool absent from the execution path is a
tool-unavailable error, a failing partition tool is a partition error,
an unresolvable disk identifier is a device-resolution error, a failing
raw copy is a copy-failed error, and a simulated stage failure is the
stage-specific error of its stage. -/
def specClass : Err → SpecError
  | .isoNotFound _ => .validationError
  | .fileNotFound _ => .validationError
  | .execNotFound _ => .toolUnavailableError
  | .toolMissing _ => .toolUnavailableError
  | .diskpartFailed _ => .partitionError
  | .diskUnresolved _ => .deviceResolutionError
  | .ddFailed _ => .copyFailedError
  | .unsupportedOS _ => .unsupportedPlatformError
  | .stageFail .prepare _ => .partitionError
  | .stageFail .writeImage _ => .copyFailedError
  | .stageFail .configurePersistence _ => .persistenceSetupError
  | .stageFail .installBootloader _ => .bootloaderError

/-- Observable events of one run: a progress-callback call, the
orchestrator handing control to a stage implementation, or a stage
launching an external process. -/
inductive Ev where
  | progress (pct : Nat) (msg : String)
  | invoke (s : StageId)
  | spawn (cmd : List String)
  deriving DecidableEq, Repr

/-- Environment: everything the external world decides.  `fsExists`
models os.path.exists, `which` models both shutil.which and whether
subprocess can launch a binary of that name, `lsblkStdout` the stdout of
lsblk on a device (none meaning a nonzero exit, which subprocess.run
check=True turns into CalledProcessError), `diskpartDetailStdout` the
stdout of the diskpart detail query for a volume letter,
`diskpartReturncode`/`diskpartStderr` the outcome of the destructive
diskpart script run, and `ddStderrLines`/`ddReturncode` the stderr
stream and exit status of the dd copy. -/
structure Env where
  fsExists : String → Bool
  which : String → Bool
  lsblkStdout : String → Option String
  diskpartDetailStdout : String → String
  diskpartReturncode : Int
  diskpartStderr : String
  ddStderrLines : List String
  ddReturncode : Int

/-- Result of one stage body: the events it emitted before returning or
raising, and the exception it raised, if any. -/
abbrev StageOut := List Ev × Option Err

/- ---------- string helpers mirroring the Python primitives ---------- -/

/-- List-level test that the second list starts with the first. -/
def startsWithL : List Char → List Char → Bool
  | [], _ => true
  | _ :: _, [] => false
  | p :: ps, c :: cs => p == c && startsWithL ps cs

/-- Aux for substring search over char lists. -/
def hasSubstrL (pat : List Char) : List Char → Bool
  | [] => startsWithL pat []
  | c :: cs => startsWithL pat (c :: cs) || hasSubstrL pat cs

/-- Python `pat in s` substring test. -/
def hasSubstr (pat s : String) : Bool :=
  hasSubstrL pat.data s.data

/-- Decimal digit test, as used by the regex class of digits. -/
def isDigitC (c : Char) : Bool := '0' ≤ c && c ≤ '9'

/-- Longest run of leading decimal digits. -/
def takeDigits : List Char → List Char
  | [] => []
  | c :: cs => if isDigitC c then c :: takeDigits cs else []

/-- Scan for the first position where the text matches literal Disk
followed by a space and at least one digit, and capture the maximal
digit run there: the semantics of re.search of the pattern Disk
followed by a digit group applied by _get_windows_disk_number. -/
def findDiskAux : List Char → Option (List Char)
  | [] => none
  | c :: cs =>
    if startsWithL ['D', 'i', 's', 'k', ' '] (c :: cs) then
      match (c :: cs).drop 5 with
      | d :: ds =>
        if isDigitC d then some (d :: takeDigits ds) else findDiskAux cs
      | [] => findDiskAux cs
    else findDiskAux cs

/-- String-level wrapper of `findDiskAux`. -/
def findDiskNumber (s : String) : Option String :=
  (findDiskAux s.data).map fun l => String.mk l

/-- Python rstrip of colon and backslash characters, as applied to the
drive path by _get_windows_disk_number. -/
def rstripColonSlash (s : String) : String :=
  String.mk ((s.data.reverse.dropWhile fun c => c == ':' || c == '\\').reverse)

/- ---------- platform strategy bodies ---------- -/

/-- Embedding of _get_windows_disk_number: run the read-only diskpart
detail query for the volume letter and search its stdout for a disk
number; an unmatched search is the RuntimeError raise site. -/
def getWindowsDiskNumber (env : Env) (drivePath : String) : Except Err String :=
  match findDiskNumber (env.diskpartDetailStdout (rstripColonSlash drivePath)) with
  | some n => .ok n
  | none => .error (.diskUnresolved drivePath)

/-- Text of the destructive diskpart script written by
_prepare_drive_windows. -/
def diskpartScript (diskNumber : String) (persistenceSize : Int) : String :=
  "select disk " ++ diskNumber ++ "\n" ++
  "clean\n" ++
  "convert mbr\n" ++
  "create partition primary size=4096\n" ++
  "format quick fs=fat32 label=\"LINUX_BOOT\"\n" ++
  "active\n" ++
  "create partition primary size=" ++ toString (persistenceSize * 1024) ++ "\n" ++
  "format quick fs=ntfs label=\"PERSISTENCE\"\n" ++
  "create partition primary\n" ++
  "format quick fs=ntfs label=\"DATA\"\n" ++
  "assign\n" ++
  "exit\n"

/-- Embedding of _prepare_drive_windows: resolve the disk number first,
then run the destructive diskpart script and fail on nonzero exit. -/
def prepareDriveWindows (env : Env) (devicePath : String) (persistenceSize : Int) : StageOut :=
  match getWindowsDiskNumber env devicePath with
  | .error e => ([], some e)
  | .ok n =>
    if env.diskpartReturncode ≠ 0 then
      ([Ev.progress 10 "Formatting drive...",
        Ev.spawn ["diskpart", "/s", diskpartScript n persistenceSize]],
       some (.diskpartFailed env.diskpartStderr))
    else
      ([Ev.progress 10 "Formatting drive...",
        Ev.spawn ["diskpart", "/s", diskpartScript n persistenceSize]],
       none)

/-- Embedding of _prepare_drive_macos (placeholder body in the source). -/
def prepareDriveMacos : StageOut :=
  ([Ev.progress 15 "Formatting drive on macOS..."], none)

/-- Whitespace test of Python str.strip. -/
def isSpaceC (c : Char) : Bool :=
  c == ' ' || c == '\t' || c == '\n' || c == '\r'

/-- Python str.strip over a char list. -/
def trimL (l : List Char) : List Char :=
  ((l.dropWhile isSpaceC).reverse.dropWhile isSpaceC).reverse

/-- Python split on the newline character over a char list: every
newline separates, empty pieces are kept. -/
def splitNl : List Char → List (List Char)
  | [] => [[]]
  | c :: cs =>
    match splitNl cs, c == '\n' with
    | r, true => [] :: r
    | [], false => [[c]]
    | h :: t, false => (c :: h) :: t

/-- Embedding of _get_linux_partitions: a missing lsblk binary raises a
FileNotFoundError out of subprocess (not caught, since the handler only
catches CalledProcessError); a nonzero lsblk exit is caught and yields
an empty list; otherwise lsblk stdout is stripped, split on newlines,
the device line dropped, and the names prefixed with the dev directory. -/
def getLinuxPartitions (env : Env) (devicePath : String) : Except Err (List String) :=
  if env.which "lsblk" = false then
    .error (.execNotFound "lsblk")
  else
    match env.lsblkStdout devicePath with
    | none => .ok []
    | some out =>
      .ok (((((splitNl (trimL out.data)).map fun l => String.mk l).drop 1)).map
        fun name => "/dev/" ++ name)

/-- Embedding of _unmount_all_partitions together with
_unmount_partition: each unmount attempt is a spawn whose outcome is
swallowed by the bare except, while an exception from the enumeration
propagates. -/
def unmountAllPartitions (env : Env) (devicePath : String) : StageOut :=
  match getLinuxPartitions env devicePath with
  | .error e => ([], some e)
  | .ok parts => (parts.map fun p => Ev.spawn ["umount", p], none)

/-- Embedding of _prepare_drive_linux: unmount every partition, then the
placeholder format step. -/
def prepareDriveLinux (env : Env) (devicePath : String) : StageOut :=
  match unmountAllPartitions env devicePath with
  | (t, some e) => (t, some e)
  | (t, none) => (t ++ [Ev.progress 15 "Formatting drive on Linux..."], none)

/-- Embedding of _prepare_drive platform dispatch. -/
def prepareDrive (sys : String) (env : Env) (devicePath : String) (persistenceSize : Int) : StageOut :=
  if sys == "Windows" then prepareDriveWindows env devicePath persistenceSize
  else if sys == "Darwin" then prepareDriveMacos
  else if sys == "Linux" then prepareDriveLinux env devicePath
  else ([], some (.unsupportedOS sys))

/-- Embedding of _write_iso_windows (placeholder body in the source). -/
def writeIsoWindows : StageOut :=
  ([Ev.progress 40 "Writing ISO on Windows..."], none)

/-- Embedding of _write_iso_macos (placeholder body in the source). -/
def writeIsoMacos : StageOut :=
  ([Ev.progress 40 "Writing ISO on macOS..."], none)

/-- The dd command line constructed by _write_iso_linux. -/
def ddCmd (devicePath isoPath : String) : List String :=
  ["pkexec", "dd", "if=" ++ isoPath, "of=" ++ devicePath,
   "bs=4M", "status=progress", "oflag=sync"]

/-- The progress events of the dd stderr monitoring loop of
_write_iso_linux: one coarse fifty-percent event per stderr line
containing the word copied. -/
def ddEvents (env : Env) : List Ev :=
  env.ddStderrLines.filterMap fun line =>
    if hasSubstr "copied" line then
      some (Ev.progress 50 "Writing ISO...")
    else
      none

/-- Embedding of _write_iso_linux: both tools must be found on PATH
before the copy process is spawned; then the monitoring loop events;
a nonzero dd exit raises with the stderr that remains after the line
loop drained the stream, which is empty. -/
def writeIsoLinux (env : Env) (devicePath isoPath : String) : StageOut :=
  if env.which "pkexec" = false then
    ([], some (.toolMissing "pkexec"))
  else if env.which "dd" = false then
    ([], some (.toolMissing "dd"))
  else if env.ddReturncode ≠ 0 then
    (Ev.spawn (ddCmd devicePath isoPath) :: ddEvents env, some (.ddFailed ""))
  else
    ((Ev.spawn (ddCmd devicePath isoPath) :: ddEvents env) ++
      [Ev.progress 70 "ISO written successfully"], none)

/-- Embedding of _write_iso platform dispatch. -/
def writeIsoStage (sys : String) (env : Env) (devicePath isoPath : String) : StageOut :=
  if sys == "Windows" then writeIsoWindows
  else if sys == "Darwin" then writeIsoMacos
  else if sys == "Linux" then writeIsoLinux env devicePath isoPath
  else ([], some (.unsupportedOS sys))

/-- Embedding of the three _setup_persistence platform bodies, which are
placeholders differing only in the message, behind the _setup_persistence
dispatch. -/
def setupPersistenceStage (sys : String) : StageOut :=
  if sys == "Windows" then
    ([Ev.progress 75 "Setting up persistence on Windows..."], none)
  else if sys == "Darwin" then
    ([Ev.progress 75 "Setting up persistence on macOS..."], none)
  else if sys == "Linux" then
    ([Ev.progress 75 "Setting up persistence on Linux..."], none)
  else ([], some (.unsupportedOS sys))

/-- Embedding of the three _install_bootloader platform bodies, which are
placeholders differing only in the message, behind the
_install_bootloader dispatch. -/
def installBootloaderStage (sys : String) : StageOut :=
  if sys == "Windows" then
    ([Ev.progress 95 "Installing bootloader on Windows..."], none)
  else if sys == "Darwin" then
    ([Ev.progress 95 "Installing bootloader on macOS..."], none)
  else if sys == "Linux" then
    ([Ev.progress 95 "Installing bootloader on Linux..."], none)
  else ([], some (.unsupportedOS sys))

/- ---------- the orchestrator ---------- -/

/-- The error-path progress event emitted by the except handler of
create_bootable_drive before it re-raises. -/
def errEvent (e : Err) : Ev :=
  Ev.progress 0 ("Error: " ++ e.str)

/-- Embedding of the body of create_bootable_drive, parameterised by the
already-applied outcomes of the four stage bodies (each a pure value:
its emitted events plus its exception, consulted only if control
reaches that stage).  The iso existence check precedes every
progress-callback call; each stage is preceded by its banner event; a
raising stage makes the except handler emit `errEvent` and re-raise;
a full pass emits the terminal hundred-percent event and returns True. -/
def createBootableDrive (isoExists : Bool) (isoPath : String)
    (prep wri per boo : StageOut) : List Ev × Except Err Bool :=
  if isoExists = false then
    ([], .error (.isoNotFound isoPath))
  else
    let t1 := [Ev.progress 0 "Starting bootable drive creation...",
               Ev.progress 5 "Preparing drive...",
               Ev.invoke .prepare] ++ prep.1
    match prep.2 with
    | some e => (t1 ++ [errEvent e], .error e)
    | none =>
      let t2 := t1 ++ [Ev.progress 30 "Writing ISO to drive...",
                       Ev.invoke .writeImage] ++ wri.1
      match wri.2 with
      | some e => (t2 ++ [errEvent e], .error e)
      | none =>
        let t3 := t2 ++ [Ev.progress 70 "Setting up persistence...",
                         Ev.invoke .configurePersistence] ++ per.1
        match per.2 with
        | some e => (t3 ++ [errEvent e], .error e)
        | none =>
          let t4 := t3 ++ [Ev.progress 90 "Installing bootloader...",
                           Ev.invoke .installBootloader] ++ boo.1
          match boo.2 with
          | some e => (t4 ++ [errEvent e], .error e)
          | none =>
            (t4 ++ [Ev.progress 100 "Bootable drive created successfully!"],
             .ok true)

/-- The full pipeline on a host system: create_bootable_drive with the
platform-dispatched stage bodies of the source. -/
def createBootableDriveSys (sys : String) (env : Env)
    (devicePath isoPath : String) (persistenceSize : Int) :
    List Ev × Except Err Bool :=
  createBootableDrive (env.fsExists isoPath) isoPath
    (prepareDrive sys env devicePath persistenceSize)
    (writeIsoStage sys env devicePath isoPath)
    (setupPersistenceStage sys)
    (installBootloaderStage sys)

/- ---------- trace observations ---------- -/

/-- The percentages handed to the progress callback, in order. -/
def pcts (t : List Ev) : List Nat :=
  t.filterMap fun e =>
    match e with
    | .progress p _ => some p
    | _ => none

/-- The stage invocations of a trace, in order. -/
def invokes (t : List Ev) : List StageId :=
  t.filterMap fun e =>
    match e with
    | .invoke s => some s
    | _ => none

/-- The process spawns of a trace, in order. -/
def spawns (t : List Ev) : List (List String) :=
  t.filterMap fun e =>
    match e with
    | .spawn c => some c
    | _ => none

/-- Non-decreasing percentage sequence. -/
def nonDec (l : List Nat) : Prop :=
  List.Pairwise (fun a b => a ≤ b) l

instance (l : List Nat) : Decidable (nonDec l) := by
  unfold nonDec; infer_instance

/- ---------- sample environments for concrete evaluation ---------- -/

/-- An environment where every file exists, every tool is on PATH and
every tool run succeeds. -/
def envOk : Env where
  fsExists := fun _ => true
  which := fun _ => true
  lsblkStdout := fun _ => some "sdb\nsdb1\nsdb2"
  diskpartDetailStdout := fun _ => "Disk 2 is now the selected disk."
  diskpartReturncode := 0
  diskpartStderr := ""
  ddStderrLines := ["1024 bytes (1.0 kB) copied, 0.01 s"]
  ddReturncode := 0

/-- Like `envOk` but with pkexec absent from PATH. -/
def envNoPkexec : Env :=
  { envOk with which := fun t => t != "pkexec" }

/-- Like `envOk` but with lsblk absent from PATH. -/
def envNoLsblk : Env :=
  { envOk with which := fun t => t != "lsblk" }

/-- Like `envOk` but with no file existing. -/
def envNoIso : Env :=
  { envOk with fsExists := fun _ => false }

/-- Like `envOk` but with a diskpart detail output from which no disk
number can be parsed. -/
def envNoDisk : Env :=
  { envOk with diskpartDetailStdout := fun _ => "DiskPart has encountered an error." }

/-- The trace of a fully successful run, as a function of the four stage
traces: the shape produced by the success path of
`createBootableDrive`. -/
def bigTrace (pt wt pet bt : List Ev) : List Ev :=
  [Ev.progress 0 "Starting bootable drive creation...",
   Ev.progress 5 "Preparing drive...",
   Ev.invoke .prepare] ++ pt ++
  [Ev.progress 30 "Writing ISO to drive...",
   Ev.invoke .writeImage] ++ wt ++
  [Ev.progress 70 "Setting up persistence...",
   Ev.invoke .configurePersistence] ++ pet ++
  [Ev.progress 90 "Installing bootloader...",
   Ev.invoke .installBootloader] ++ bt ++
  [Ev.progress 100 "Bootable drive created successfully!"]

end BootableCreator

namespace ISOHandler

/-!
Embedding of ISOHandler.calculate_checksum: the hashlib.sha256 digest of
the file's bytes, rendered as lowercase hexadecimal.  SHA-256 is defined
here from the FIPS 180-4 algorithm over `Nat` with explicit reduction
modulo two to the thirty-two; reading the file in four-kilobyte chunks
and folding them into the hash state is extensionally the hash of the
whole byte content, which is what the model takes as input.
-/

/-- Word modulus of the thirty-two bit arithmetic. -/
def M32 : Nat := 4294967296

/-- Right rotation of a thirty-two bit word. -/
def rotr (k n : Nat) : Nat :=
  ((n >>> k) ||| (n <<< (32 - k))) % M32

/-- Choice function of the compression loop. -/
def ch (x y z : Nat) : Nat :=
  (x &&& y) ^^^ ((x ^^^ 4294967295) &&& z)

/-- Majority function of the compression loop. -/
def maj (x y z : Nat) : Nat :=
  (x &&& y) ^^^ (x &&& z) ^^^ (y &&& z)

/-- Big sigma-zero of the compression loop. -/
def bsig0 (x : Nat) : Nat := rotr 2 x ^^^ rotr 13 x ^^^ rotr 22 x

/-- Big sigma-one of the compression loop. -/
def bsig1 (x : Nat) : Nat := rotr 6 x ^^^ rotr 11 x ^^^ rotr 25 x

/-- Small sigma-zero of the message schedule. -/
def ssig0 (x : Nat) : Nat := rotr 7 x ^^^ rotr 18 x ^^^ (x >>> 3)

/-- Small sigma-one of the message schedule. -/
def ssig1 (x : Nat) : Nat := rotr 17 x ^^^ rotr 19 x ^^^ (x >>> 10)

/-- Round constants. -/
def K : List Nat :=
  [1116352408, 1899447441, 3049323471, 3921009573,
   961987163, 1508970993, 2453635748, 2870763221,
   3624381080, 310598401, 607225278, 1426881987,
   1925078388, 2162078206, 2614888103, 3248222580,
   3835390401, 4022224774, 264347078, 604807628,
   770255983, 1249150122, 1555081692, 1996064986,
   2554220882, 2821834349, 2952996808, 3210313671,
   3336571891, 3584528711, 113926993, 338241895,
   666307205, 773529912, 1294757372, 1396182291,
   1695183700, 1986661051, 2177026350, 2456956037,
   2730485921, 2820302411, 3259730800, 3345764771,
   3516065817, 3600352804, 4094571909, 275423344,
   430227734, 506948616, 659060556, 883997877,
   958139571, 1322822218, 1537002063, 1747873779,
   1955562222, 2024104815, 2227730452, 2361852424,
   2428436474, 2756734187, 3204031479, 3329325298]

/-- Initial hash value. -/
def H0 : List Nat :=
  [1779033703, 3144134277, 1013904242, 2773480762,
   1359893119, 2600822924, 528734635, 1541459225]

/-- Padding: append the single high bit, zero bytes to fifty-six modulo
sixty-four, then the bit length as eight big-endian bytes. -/
def pad (msg : List Nat) : List Nat :=
  let len := msg.length
  let zeros := (64 - ((len + 9) % 64)) % 64
  msg ++ [128] ++ List.replicate zeros 0 ++
    ((List.range 8).map fun i => ((len * 8) >>> ((7 - i) * 8)) % 256)

/-- Big-endian conversion of four consecutive bytes into one word. -/
def word (b0 b1 b2 b3 : Nat) : Nat :=
  ((b0 * 256 + b1) * 256 + b2) * 256 + b3

/-- Split a byte list into big-endian thirty-two bit words. -/
def toWords : List Nat → List Nat
  | b0 :: b1 :: b2 :: b3 :: rest => word b0 b1 b2 b3 :: toWords rest
  | _ => []

/-- Split a word list into blocks of sixteen words, dropping an
incomplete tail (padding always yields a multiple of sixteen words). -/
def toBlocks : List Nat → List (List Nat)
  | w0 :: w1 :: w2 :: w3 :: w4 :: w5 :: w6 :: w7 ::
    w8 :: w9 :: w10 :: w11 :: w12 :: w13 :: w14 :: w15 :: rest =>
    [w0, w1, w2, w3, w4, w5, w6, w7, w8, w9, w10, w11, w12, w13, w14, w15] ::
      toBlocks rest
  | _ => []

/-- Extend sixteen schedule words by one; the argument holds the words
produced so far in reverse order. -/
def nextW (rws : List Nat) : Nat :=
  (ssig1 (rws.getD 1 0) + rws.getD 6 0 + ssig0 (rws.getD 14 0) + rws.getD 15 0) % M32

/-- Build the full sixty-four word message schedule in reverse order. -/
def scheduleAux : Nat → List Nat → List Nat
  | 0, rws => rws
  | n + 1, rws => scheduleAux n (nextW rws :: rws)

/-- The sixty-four word message schedule of a sixteen-word block. -/
def schedule (block : List Nat) : List Nat :=
  (scheduleAux 48 block.reverse).reverse

/-- One compression round on the eight-word working state. -/
def round (kt wt : Nat) : List Nat → List Nat
  | [a, b, c, d, e, f, g, h] =>
    let t1 := (h + bsig1 e + ch e f g + kt + wt) % M32
    let t2 := (bsig0 a + maj a b c) % M32
    [(t1 + t2) % M32, a, b, c, (d + t1) % M32, e, f, g]
  | s => s

/-- Run the sixty-four rounds of one block over the working state. -/
def rounds : List Nat → List Nat → List Nat → List Nat
  | kt :: ks, wt :: ws, s => rounds ks ws (round kt wt s)
  | _, _, s => s

/-- Compress one block into the hash state. -/
def compress (h block : List Nat) : List Nat :=
  (h.zip (rounds K (schedule block) h)).map fun p => (p.1 + p.2) % M32

/-- SHA-256 digest of a byte list, as eight words. -/
def sha256Words (msg : List Nat) : List Nat :=
  (toBlocks (toWords (pad msg))).foldl compress H0

/-- Lowercase hexadecimal digit. -/
def hexDigit (n : Nat) : Char :=
  if n < 10 then Char.ofNat (48 + n) else Char.ofNat (87 + n)

/-- Eight lowercase hexadecimal digits of one word, most significant
first. -/
def wordHex (n : Nat) : List Char :=
  (List.range 8).map fun i => hexDigit ((n >>> ((7 - i) * 4)) % 16)

/-- The hexdigest string of the SHA-256 of a byte list. -/
def sha256Hex (msg : List Nat) : String :=
  String.mk ((sha256Words msg).map wordHex).flatten

/-- UTF-8 bytes of an ASCII string (code points, since ASCII). -/
def strBytes (s : String) : List Nat :=
  s.data.map fun c => c.toNat

/-- Embedding of ISOHandler.calculate_checksum over a filesystem model
mapping a path to the byte content of the file there, or none when
os.path.exists is false, in which case the FileNotFoundError raise site
is taken; otherwise the SHA-256 hexdigest of the content is returned. -/
def calculate_checksum (fs : String → Option (List Nat)) (filePath : String) :
    Except BootableCreator.Err String :=
  match fs filePath with
  | none => .error (.fileNotFound filePath)
  | some bytes => .ok (sha256Hex bytes)

end ISOHandler

/-!
Helper lemmas shared by the claim theorems.
-/

namespace BootableCreator

/-- A list starts with itself. -/
theorem startsWithL_self (l : List Char) : startsWithL l l = true := by
  induction l with
  | nil => rfl
  | cons c cs ih => simp [startsWithL, ih]

/-- Every string is a substring of itself. -/
theorem hasSubstr_self (s : String) : hasSubstr s s = true := by
  unfold hasSubstr
  cases h : s.data with
  | nil => rfl
  | cons c cs => simp [hasSubstrL, startsWithL_self]

/-- Unmount-attempt spawns contribute no stage invocations. -/
theorem invokes_umounts (l : List String) :
    invokes (l.map fun p => Ev.spawn ["umount", p]) = [] := by
  induction l with
  | nil => rfl
  | cons a as ih => simp only [List.map_cons, List.filterMap_cons, invokes] at ih ⊢; exact ih

/-- Unmount-attempt spawns contribute no percentages. -/
theorem pcts_umounts (l : List String) :
    pcts (l.map fun p => Ev.spawn ["umount", p]) = [] := by
  induction l with
  | nil => rfl
  | cons a as ih => simp only [List.map_cons, List.filterMap_cons, pcts] at ih ⊢; exact ih

/-- A helper form of `ddEvents` by lines, for induction. -/
theorem ddEvents_def (env : Env) :
    ddEvents env = env.ddStderrLines.filterMap fun line =>
      if hasSubstr "copied" line then some (Ev.progress 50 "Writing ISO...")
      else none := rfl

/-- The dd progress loop contributes no stage invocations. -/
theorem invokes_ddLines (lines : List String) :
    invokes (lines.filterMap fun line =>
      if hasSubstr "copied" line then some (Ev.progress 50 "Writing ISO...")
      else none) = [] := by
  induction lines with
  | nil => rfl
  | cons a as ih =>
    by_cases h : hasSubstr "copied" a = true <;>
      · simp only [List.filterMap_cons, h, if_true, if_false, invokes] at ih ⊢
        simpa using ih

/-- The dd monitoring loop of `writeIsoLinux` contributes no stage
invocations. -/
theorem invokes_ddEvents (env : Env) : invokes (ddEvents env) = [] := by
  rw [ddEvents_def]; exact invokes_ddLines env.ddStderrLines

/-- The dd progress loop contributes a block of fifty-percent events. -/
theorem pcts_ddLines (lines : List String) :
    ∃ k, pcts (lines.filterMap fun line =>
      if hasSubstr "copied" line then some (Ev.progress 50 "Writing ISO...")
      else none) = List.replicate k 50 := by
  induction lines with
  | nil => exact ⟨0, rfl⟩
  | cons a as ih =>
    obtain ⟨k, hk⟩ := ih
    by_cases h : hasSubstr "copied" a = true
    · exact ⟨k + 1, by
        simp [pcts, List.filterMap_cons, h, List.replicate_succ]
        simpa [pcts] using hk⟩
    · exact ⟨k, by
        simp [pcts, List.filterMap_cons, h]
        simpa [pcts] using hk⟩

/-- The dd monitoring loop of `writeIsoLinux` contributes a block of
fifty-percent events. -/
theorem pcts_ddEvents (env : Env) :
    ∃ k, pcts (ddEvents env) = List.replicate k 50 := by
  rw [ddEvents_def]; exact pcts_ddLines env.ddStderrLines

end BootableCreator

namespace BootableCreator

theorem cbd_ok_shape (ie : Bool) (ip : String) (p w pe b : StageOut) (bv : Bool)
    (h : (createBootableDrive ie ip p w pe b).2 = .ok bv) :
    ie = true ∧ bv = true ∧ p.2 = none ∧ w.2 = none ∧ pe.2 = none ∧ b.2 = none ∧
    (createBootableDrive ie ip p w pe b).1 = bigTrace p.1 w.1 pe.1 b.1 := by
  obtain ⟨pt, po⟩ := p
  obtain ⟨wt, wo⟩ := w
  obtain ⟨pet, peo⟩ := pe
  obtain ⟨bt, bo⟩ := b
  cases ie <;> cases po <;> cases wo <;> cases peo <;> cases bo <;>
    simp_all [createBootableDrive, bigTrace]

theorem cbd_error_source (ie : Bool) (ip : String) (p w pe b : StageOut) (e : Err)
    (hie : ie = true)
    (h : (createBootableDrive ie ip p w pe b).2 = .error e) :
    p.2 = some e ∨ w.2 = some e ∨ pe.2 = some e ∨ b.2 = some e := by
  subst hie
  obtain ⟨pt, po⟩ := p
  obtain ⟨wt, wo⟩ := w
  obtain ⟨pet, peo⟩ := pe
  obtain ⟨bt, bo⟩ := b
  cases po <;> cases wo <;> cases peo <;> cases bo <;>
    simp_all [createBootableDrive]

theorem cbd_error_last (ip : String) (p w pe b : StageOut) (e : Err)
    (h : (createBootableDrive true ip p w pe b).2 = .error e) :
    (createBootableDrive true ip p w pe b).1.getLast? = some (errEvent e) := by
  obtain ⟨pt, po⟩ := p
  obtain ⟨wt, wo⟩ := w
  obtain ⟨pet, peo⟩ := pe
  obtain ⟨bt, bo⟩ := b
  cases po <;> cases wo <;> cases peo <;> cases bo <;>
    simp only [createBootableDrive, Bool.true_eq_false, if_false,
      Except.error.injEq, reduceCtorEq] at h <;>
    (subst h; exact List.getLast?_concat _)

theorem cbd_take3 (ip : String) (p w pe b : StageOut) :
    (createBootableDrive true ip p w pe b).1.take 3 =
      [Ev.progress 0 "Starting bootable drive creation...",
       Ev.progress 5 "Preparing drive...",
       Ev.invoke .prepare] := by
  obtain ⟨pt, po⟩ := p
  obtain ⟨wt, wo⟩ := w
  obtain ⟨pet, peo⟩ := pe
  obtain ⟨bt, bo⟩ := b
  cases po <;> cases wo <;> cases peo <;> cases bo <;>
    simp [createBootableDrive]

theorem invokes_append (a b : List Ev) :
    invokes (a ++ b) = invokes a ++ invokes b :=
  List.filterMap_append a b _

theorem pcts_append (a b : List Ev) :
    pcts (a ++ b) = pcts a ++ pcts b :=
  List.filterMap_append a b _

theorem invokes_cons_spawn (c : List String) (l : List Ev) :
    invokes (Ev.spawn c :: l) = invokes l := by
  simp [invokes, List.filterMap_cons]

theorem invokes_cons_progress (p : Nat) (m : String) (l : List Ev) :
    invokes (Ev.progress p m :: l) = invokes l := by
  simp [invokes, List.filterMap_cons]

theorem invokes_cons_invoke (s : StageId) (l : List Ev) :
    invokes (Ev.invoke s :: l) = s :: invokes l := by
  simp [invokes, List.filterMap_cons]

theorem pcts_cons_spawn (c : List String) (l : List Ev) :
    pcts (Ev.spawn c :: l) = pcts l := by
  simp [pcts, List.filterMap_cons]

theorem pcts_cons_progress (p : Nat) (m : String) (l : List Ev) :
    pcts (Ev.progress p m :: l) = p :: pcts l := by
  simp [pcts, List.filterMap_cons]

theorem pcts_cons_invoke (s : StageId) (l : List Ev) :
    pcts (Ev.invoke s :: l) = pcts l := by
  simp [pcts, List.filterMap_cons]

theorem invokes_nil : invokes [] = [] := rfl

theorem pcts_nil : pcts [] = [] := rfl

theorem prepareDriveWindows_ok (env : Env) (d : String) (sz : Int)
    (h : (prepareDriveWindows env d sz).2 = none) :
    invokes (prepareDriveWindows env d sz).1 = [] ∧
    pcts (prepareDriveWindows env d sz).1 = [10] := by
  unfold prepareDriveWindows at h ⊢
  cases hg : getWindowsDiskNumber env d with
  | error e => rw [hg] at h; exact Option.noConfusion h
  | ok n =>
    rw [hg] at h
    by_cases hr : env.diskpartReturncode ≠ 0
    · simp [hr] at h
    · simp [hr, invokes_cons_spawn, invokes_cons_progress, invokes_nil,
        pcts_cons_spawn, pcts_cons_progress, pcts_nil]

theorem prepareDriveLinux_ok (env : Env) (d : String)
    (h : (prepareDriveLinux env d).2 = none) :
    invokes (prepareDriveLinux env d).1 = [] ∧
    pcts (prepareDriveLinux env d).1 = [15] := by
  unfold prepareDriveLinux unmountAllPartitions at h ⊢
  cases hg : getLinuxPartitions env d with
  | error e => rw [hg] at h; exact Option.noConfusion h
  | ok parts =>
    constructor
    · show invokes ((parts.map fun p => Ev.spawn ["umount", p]) ++
        [Ev.progress 15 "Formatting drive on Linux..."]) = []
      rw [invokes_append, invokes_umounts]
      rfl
    · show pcts ((parts.map fun p => Ev.spawn ["umount", p]) ++
        [Ev.progress 15 "Formatting drive on Linux..."]) = [15]
      rw [pcts_append, pcts_umounts]
      rfl

theorem prep_ok (sys : String) (env : Env) (d : String) (sz : Int)
    (h : (prepareDrive sys env d sz).2 = none) :
    invokes (prepareDrive sys env d sz).1 = [] ∧
    (pcts (prepareDrive sys env d sz).1 = [10] ∨
     pcts (prepareDrive sys env d sz).1 = [15]) := by
  unfold prepareDrive at h ⊢
  cases h1 : sys == "Windows" with
  | true =>
    simp only [h1, if_true] at h ⊢
    exact ⟨(prepareDriveWindows_ok env d sz h).1,
           Or.inl (prepareDriveWindows_ok env d sz h).2⟩
  | false =>
    simp only [h1, Bool.false_eq_true, if_false] at h ⊢
    cases h2 : sys == "Darwin" with
    | true =>
      simp only [h2, if_true] at h ⊢
      exact ⟨rfl, Or.inr rfl⟩
    | false =>
      simp only [h2, Bool.false_eq_true, if_false] at h ⊢
      cases h3 : sys == "Linux" with
      | true =>
        simp only [h3, if_true] at h ⊢
        exact ⟨(prepareDriveLinux_ok env d h).1,
               Or.inr (prepareDriveLinux_ok env d h).2⟩
      | false =>
        simp only [h3, Bool.false_eq_true, if_false] at h
        exact Option.noConfusion h

theorem writeIsoLinux_ok (env : Env) (d i : String)
    (h : (writeIsoLinux env d i).2 = none) :
    invokes (writeIsoLinux env d i).1 = [] ∧
    ∃ k, pcts (writeIsoLinux env d i).1 = List.replicate k 50 ++ [70] := by
  unfold writeIsoLinux at h ⊢
  by_cases hp : env.which "pkexec" = false
  · rw [if_pos hp] at h; exact Option.noConfusion h
  · rw [if_neg hp] at h ⊢
    by_cases hd : env.which "dd" = false
    · rw [if_pos hd] at h; exact Option.noConfusion h
    · rw [if_neg hd] at h ⊢
      by_cases hr : env.ddReturncode ≠ 0
      · rw [if_pos hr] at h; exact Option.noConfusion h
      · rw [if_neg hr] at h ⊢
        obtain ⟨k, hk⟩ := pcts_ddEvents env
        refine ⟨?_, k, ?_⟩
        · show invokes ((Ev.spawn (ddCmd d i) :: ddEvents env) ++
            [Ev.progress 70 "ISO written successfully"]) = []
          rw [invokes_append, invokes_cons_spawn, invokes_ddEvents]
          rfl
        · show pcts ((Ev.spawn (ddCmd d i) :: ddEvents env) ++
            [Ev.progress 70 "ISO written successfully"]) =
            List.replicate k 50 ++ [70]
          rw [pcts_append, pcts_cons_spawn, hk]
          rfl

theorem write_ok (sys : String) (env : Env) (d i : String)
    (h : (writeIsoStage sys env d i).2 = none) :
    invokes (writeIsoStage sys env d i).1 = [] ∧
    (pcts (writeIsoStage sys env d i).1 = [40] ∨
     ∃ k, pcts (writeIsoStage sys env d i).1 = List.replicate k 50 ++ [70]) := by
  unfold writeIsoStage at h ⊢
  cases h1 : sys == "Windows" with
  | true => simp only [h1, if_true] at h ⊢; exact ⟨rfl, Or.inl rfl⟩
  | false =>
    simp only [h1, Bool.false_eq_true, if_false] at h ⊢
    cases h2 : sys == "Darwin" with
    | true => simp only [h2, if_true] at h ⊢; exact ⟨rfl, Or.inl rfl⟩
    | false =>
      simp only [h2, Bool.false_eq_true, if_false] at h ⊢
      cases h3 : sys == "Linux" with
      | true =>
        simp only [h3, if_true] at h ⊢
        exact ⟨(writeIsoLinux_ok env d i h).1,
               Or.inr (writeIsoLinux_ok env d i h).2⟩
      | false =>
        simp only [h3, Bool.false_eq_true, if_false] at h
        exact Option.noConfusion h

theorem persist_ok (sys : String)
    (h : (setupPersistenceStage sys).2 = none) :
    invokes (setupPersistenceStage sys).1 = [] ∧
    pcts (setupPersistenceStage sys).1 = [75] := by
  unfold setupPersistenceStage at h ⊢
  cases h1 : sys == "Windows" <;> cases h2 : sys == "Darwin" <;>
    cases h3 : sys == "Linux" <;>
    simp_all [invokes, pcts]

theorem boot_ok (sys : String)
    (h : (installBootloaderStage sys).2 = none) :
    invokes (installBootloaderStage sys).1 = [] ∧
    pcts (installBootloaderStage sys).1 = [95] := by
  unfold installBootloaderStage at h ⊢
  cases h1 : sys == "Windows" <;> cases h2 : sys == "Darwin" <;>
    cases h3 : sys == "Linux" <;>
    simp_all [invokes, pcts]

end BootableCreator

namespace BootableCreator

theorem pcts_bigTrace (a b c d : List Ev) :
    pcts (bigTrace a b c d) =
      0 :: 5 :: (pcts a ++ 30 :: (pcts b ++ 70 :: (pcts c ++ 90 :: (pcts d ++ [100])))) := by
  unfold bigTrace
  rw [pcts_append, pcts_append, pcts_append, pcts_append, pcts_append,
    pcts_append, pcts_append, pcts_append]
  simp [pcts_cons_progress, pcts_cons_invoke, pcts_nil]

theorem invokes_bigTrace (a b c d : List Ev) :
    invokes (bigTrace a b c d) =
      StageId.prepare :: (invokes a ++ StageId.writeImage ::
        (invokes b ++ StageId.configurePersistence ::
          (invokes c ++ StageId.installBootloader :: invokes d))) := by
  unfold bigTrace
  rw [invokes_append, invokes_append, invokes_append, invokes_append,
    invokes_append, invokes_append, invokes_append, invokes_append]
  simp [invokes_cons_progress, invokes_cons_invoke, invokes_nil]

theorem getLast_bigTrace (a b c d : List Ev) :
    (bigTrace a b c d).getLast? =
      some (Ev.progress 100 "Bootable drive created successfully!") :=
  List.getLast?_concat _

/-- A run of the platform pipeline that returns normally has the
success-trace shape with stage traces of the concrete strategies. -/
theorem run_ok_shape (sys : String) (env : Env) (d i : String) (sz : Int)
    (bv : Bool)
    (h : (createBootableDriveSys sys env d i sz).2 = .ok bv) :
    ∃ p1 p2 p3 p4 : List Ev,
      (createBootableDriveSys sys env d i sz).1 = bigTrace p1 p2 p3 p4 ∧
      invokes p1 = [] ∧ invokes p2 = [] ∧ invokes p3 = [] ∧ invokes p4 = [] ∧
      (pcts p1 = [10] ∨ pcts p1 = [15]) ∧
      (pcts p2 = [40] ∨ ∃ k, pcts p2 = List.replicate k 50 ++ [70]) ∧
      pcts p3 = [75] ∧ pcts p4 = [95] := by
  obtain ⟨hie, hbv, hp, hw, hpe, hb, htr⟩ :=
    cbd_ok_shape (env.fsExists i) i
      (prepareDrive sys env d sz) (writeIsoStage sys env d i)
      (setupPersistenceStage sys) (installBootloaderStage sys) bv h
  refine ⟨(prepareDrive sys env d sz).1, (writeIsoStage sys env d i).1,
    (setupPersistenceStage sys).1, (installBootloaderStage sys).1, htr,
    (prep_ok sys env d sz hp).1, (write_ok sys env d i hw).1,
    (persist_ok sys hpe).1, (boot_ok sys hb).1,
    (prep_ok sys env d sz hp).2, (write_ok sys env d i hw).2,
    (persist_ok sys hpe).2, (boot_ok sys hb).2⟩

theorem nonDec_append_of (l1 l2 : List Nat) (m : Nat) (h1 : nonDec l1)
    (h2 : nonDec l2) (hu : ∀ a ∈ l1, a ≤ m) (hl : ∀ b ∈ l2, m ≤ b) :
    nonDec (l1 ++ l2) :=
  List.pairwise_append.2
    ⟨h1, h2, fun a ha b hb => le_trans (hu a ha) (hl b hb)⟩

theorem nonDec_cons_of (x : Nat) (l : List Nat) (h : nonDec l)
    (hl : ∀ b ∈ l, x ≤ b) : nonDec (x :: l) :=
  List.pairwise_cons.2 ⟨hl, h⟩

/-- Band assembly: four stage percentage lists, each non-decreasing and
within its stage band, interleaved with the banner percentages, form a
non-decreasing sequence. -/
theorem nonDec_run (p1 p2 p3 p4 : List Nat)
    (h1 : nonDec p1) (b1 : ∀ x ∈ p1, 5 ≤ x ∧ x ≤ 30)
    (h2 : nonDec p2) (b2 : ∀ x ∈ p2, 30 ≤ x ∧ x ≤ 70)
    (h3 : nonDec p3) (b3 : ∀ x ∈ p3, 70 ≤ x ∧ x ≤ 90)
    (h4 : nonDec p4) (b4 : ∀ x ∈ p4, 90 ≤ x ∧ x ≤ 100) :
    nonDec (0 :: 5 :: (p1 ++ 30 :: (p2 ++ 70 :: (p3 ++ 90 :: (p4 ++ [100]))))) := by
  have s4 : nonDec (p4 ++ [100]) := by
    refine nonDec_append_of p4 [100] 100 h4 ?_ (fun a ha => (b4 a ha).2) ?_
    · simp [nonDec]
    · intro b hb; simp at hb; omega
  have m4 : ∀ b ∈ p4 ++ [100], 90 ≤ b := by
    intro b hb
    rcases List.mem_append.1 hb with hb | hb
    · exact (b4 b hb).1
    · simp at hb; omega
  have s3 : nonDec (90 :: (p4 ++ [100])) := nonDec_cons_of _ _ s4 m4
  have s3' : nonDec (p3 ++ 90 :: (p4 ++ [100])) := by
    refine nonDec_append_of p3 _ 90 h3 s3 (fun a ha => (b3 a ha).2) ?_
    intro b hb
    rcases List.mem_cons.1 hb with hb | hb
    · omega
    · exact le_trans (by omega) (m4 b hb)
  have m3 : ∀ b ∈ p3 ++ 90 :: (p4 ++ [100]), 70 ≤ b := by
    intro b hb
    rcases List.mem_append.1 hb with hb | hb
    · exact (b3 b hb).1
    · rcases List.mem_cons.1 hb with hb | hb
      · omega
      · exact le_trans (by omega) (m4 b hb)
  have s2 : nonDec (70 :: (p3 ++ 90 :: (p4 ++ [100]))) := nonDec_cons_of _ _ s3' m3
  have s2' : nonDec (p2 ++ 70 :: (p3 ++ 90 :: (p4 ++ [100]))) := by
    refine nonDec_append_of p2 _ 70 h2 s2 (fun a ha => (b2 a ha).2) ?_
    intro b hb
    rcases List.mem_cons.1 hb with hb | hb
    · omega
    · exact le_trans (by omega) (m3 b hb)
  have m2 : ∀ b ∈ p2 ++ 70 :: (p3 ++ 90 :: (p4 ++ [100])), 30 ≤ b := by
    intro b hb
    rcases List.mem_append.1 hb with hb | hb
    · exact (b2 b hb).1
    · rcases List.mem_cons.1 hb with hb | hb
      · omega
      · exact le_trans (by omega) (m3 b hb)
  have s1 : nonDec (30 :: (p2 ++ 70 :: (p3 ++ 90 :: (p4 ++ [100])))) :=
    nonDec_cons_of _ _ s2' m2
  have s1' : nonDec (p1 ++ 30 :: (p2 ++ 70 :: (p3 ++ 90 :: (p4 ++ [100])))) := by
    refine nonDec_append_of p1 _ 30 h1 s1 (fun a ha => (b1 a ha).2) ?_
    intro b hb
    rcases List.mem_cons.1 hb with hb | hb
    · omega
    · exact le_trans (by omega) (m2 b hb)
  have m1 : ∀ b ∈ p1 ++ 30 :: (p2 ++ 70 :: (p3 ++ 90 :: (p4 ++ [100]))), 5 ≤ b := by
    intro b hb
    rcases List.mem_append.1 hb with hb | hb
    · exact (b1 b hb).1
    · rcases List.mem_cons.1 hb with hb | hb
      · omega
      · exact le_trans (by omega) (m2 b hb)
  refine nonDec_cons_of _ _ (nonDec_cons_of _ _ s1' m1) ?_
  intro b hb
  rcases List.mem_cons.1 hb with hb | hb
  · omega
  · exact le_trans (by omega) (m1 b hb)

end BootableCreator

namespace BootableCreator

theorem prep_err (sys : String) (env : Env) (d : String) (sz : Int) (e : Err)
    (h : (prepareDrive sys env d sz).2 = some e) :
    specClass e ≠ .validationError := by
  unfold prepareDrive at h
  cases h1 : sys == "Windows" with
  | true =>
    simp only [h1, if_true] at h
    unfold prepareDriveWindows at h
    cases hg : getWindowsDiskNumber env d with
    | error e2 =>
      rw [hg] at h
      have : e2 = e := Option.some.inj h
      subst this
      unfold getWindowsDiskNumber at hg
      cases hf : findDiskNumber (env.diskpartDetailStdout (rstripColonSlash d)) with
      | none => rw [hf] at hg; injection hg with hg; subst hg; simp [specClass]
      | some n => rw [hf] at hg; exact Except.noConfusion hg
    | ok n =>
      rw [hg] at h
      by_cases hr : env.diskpartReturncode ≠ 0
      · simp [hr] at h
        subst h; simp [specClass]
      · simp [hr] at h
  | false =>
    simp only [h1, Bool.false_eq_true, if_false] at h
    cases h2 : sys == "Darwin" with
    | true => simp only [h2, if_true] at h; exact Option.noConfusion h
    | false =>
      simp only [h2, Bool.false_eq_true, if_false] at h
      cases h3 : sys == "Linux" with
      | true =>
        simp only [h3, if_true] at h
        unfold prepareDriveLinux unmountAllPartitions at h
        cases hg : getLinuxPartitions env d with
        | error e2 =>
          rw [hg] at h
          have : e2 = e := Option.some.inj h
          subst this
          unfold getLinuxPartitions at hg
          by_cases hl : env.which "lsblk" = false
          · rw [if_pos hl] at hg
            injection hg with hg; subst hg; simp [specClass]
          · rw [if_neg hl] at hg
            cases ho : env.lsblkStdout d with
            | none => rw [ho] at hg; exact Except.noConfusion hg
            | some out => rw [ho] at hg; exact Except.noConfusion hg
        | ok parts => rw [hg] at h; exact Option.noConfusion h
      | false =>
        simp only [h3, Bool.false_eq_true, if_false] at h
        have : Err.unsupportedOS sys = e := Option.some.inj h
        subst this; simp [specClass]

theorem write_err (sys : String) (env : Env) (d i : String) (e : Err)
    (h : (writeIsoStage sys env d i).2 = some e) :
    specClass e ≠ .validationError := by
  unfold writeIsoStage at h
  cases h1 : sys == "Windows" with
  | true => simp only [h1, if_true] at h; exact Option.noConfusion h
  | false =>
    simp only [h1, Bool.false_eq_true, if_false] at h
    cases h2 : sys == "Darwin" with
    | true => simp only [h2, if_true] at h; exact Option.noConfusion h
    | false =>
      simp only [h2, Bool.false_eq_true, if_false] at h
      cases h3 : sys == "Linux" with
      | true =>
        simp only [h3, if_true] at h
        unfold writeIsoLinux at h
        by_cases hp : env.which "pkexec" = false
        · rw [if_pos hp] at h
          have : Err.toolMissing "pkexec" = e := Option.some.inj h
          subst this; simp [specClass]
        · rw [if_neg hp] at h
          by_cases hd : env.which "dd" = false
          · rw [if_pos hd] at h
            have : Err.toolMissing "dd" = e := Option.some.inj h
            subst this; simp [specClass]
          · rw [if_neg hd] at h
            by_cases hr : env.ddReturncode ≠ 0
            · rw [if_pos hr] at h
              have : Err.ddFailed "" = e := Option.some.inj h
              subst this; simp [specClass]
            · rw [if_neg hr] at h; exact Option.noConfusion h
      | false =>
        simp only [h3, Bool.false_eq_true, if_false] at h
        have : Err.unsupportedOS sys = e := Option.some.inj h
        subst this; simp [specClass]

theorem persist_err (sys : String) (e : Err)
    (h : (setupPersistenceStage sys).2 = some e) :
    specClass e ≠ .validationError := by
  unfold setupPersistenceStage at h
  cases h1 : sys == "Windows" <;> cases h2 : sys == "Darwin" <;>
    cases h3 : sys == "Linux" <;> simp_all [specClass]
  subst h; simp [specClass]

theorem boot_err (sys : String) (e : Err)
    (h : (installBootloaderStage sys).2 = some e) :
    specClass e ≠ .validationError := by
  unfold installBootloaderStage at h
  cases h1 : sys == "Windows" <;> cases h2 : sys == "Darwin" <;>
    cases h3 : sys == "Linux" <;> simp_all [specClass]
  subst h; simp [specClass]

end BootableCreator

namespace BootableCreator

/-- Non-decreasing block of fifty-percent events closed by seventy. -/
theorem nonDec_rep50 (k : Nat) : nonDec (List.replicate k 50 ++ [70]) := by
  induction k with
  | zero => decide
  | succ n ih =>
    rw [List.replicate_succ, List.cons_append]
    refine nonDec_cons_of _ _ ih ?_
    intro b hb
    rcases List.mem_append.1 hb with hb | hb
    · rw [List.eq_of_mem_replicate hb]
    · simp at hb; omega

/-- Band bounds of the dd fifty-percent block closed by seventy. -/
theorem mem_rep50 (k : Nat) :
    ∀ x ∈ List.replicate k 50 ++ [70], 30 ≤ x ∧ x ≤ 70 := by
  intro x hx
  rcases List.mem_append.1 hx with hx | hx
  · rw [List.eq_of_mem_replicate hx]; omega
  · simp at hx; omega

end BootableCreator

open BootableCreator

/-- C1 (amended): create_bootable_drive performs no persistence-size
validation: for any size outside the documented [1,128] range, provided
the image exists the run still emits the start banner and enters the
destructive Prepare stage, and no error it can raise is classified as a
validation error. -/
theorem C1_amended (sys : String) (env : Env) (d i : String) (sz : Int)
    (_hsz : ¬(1 ≤ sz ∧ sz ≤ 128)) (hiso : env.fsExists i = true) :
    (createBootableDriveSys sys env d i sz).1.take 3 =
      [Ev.progress 0 "Starting bootable drive creation...",
       Ev.progress 5 "Preparing drive...",
       Ev.invoke .prepare] ∧
    ∀ e, (createBootableDriveSys sys env d i sz).2 = .error e →
      specClass e ≠ .validationError := by
  constructor
  · unfold createBootableDriveSys
    rw [hiso]
    exact cbd_take3 i _ _ _ _
  · intro e he
    unfold createBootableDriveSys at he
    rw [hiso] at he
    rcases cbd_error_source true i _ _ _ _ e rfl he with h | h | h | h
    · exact prep_err sys env d sz e h
    · exact write_err sys env d i e h
    · exact persist_err sys e h
    · exact boot_err sys e h

/-- C1 counterexample: with persistence size 0 (outside [1,128]) and an
existing image, the run does not fail with a validation error: it
returns True and the destructive Prepare stage is invoked. -/
theorem C1_counterexample :
    (createBootableDriveSys "Linux" envOk "/dev/sdb" "ubuntu.iso" 0).2 =
      Except.ok true ∧
    Ev.invoke StageId.prepare ∈
      (createBootableDriveSys "Linux" envOk "/dev/sdb" "ubuntu.iso" 0).1 := by
  constructor
  · rfl
  · decide

/-- C1 witness: the amended theorem applied at persistence size minus
one. -/
theorem C1_witness :
    ¬((1 : Int) ≤ -1 ∧ (-1 : Int) ≤ 128) ∧
    ((createBootableDriveSys "Linux" envOk "/dev/sdb" "ubuntu.iso" (-1)).1.take 3 =
      [Ev.progress 0 "Starting bootable drive creation...",
       Ev.progress 5 "Preparing drive...",
       Ev.invoke .prepare] ∧
    ∀ e, (createBootableDriveSys "Linux" envOk "/dev/sdb" "ubuntu.iso" (-1)).2 = .error e →
      specClass e ≠ .validationError) :=
  ⟨by decide,
   C1_amended "Linux" envOk "/dev/sdb" "ubuntu.iso" (-1) (by decide) rfl⟩

/-- C2 (amended): within one successful run the percentages handed to
the progress callback are non-decreasing and the run ends with the
terminal hundred-percent event; a failing run instead ends with an
error event carrying percentage zero, which can be below earlier
percentages. -/
theorem C2_amended (sys : String) (env : Env) (d i : String) (sz : Int)
    (bv : Bool)
    (h : (createBootableDriveSys sys env d i sz).2 = .ok bv) :
    nonDec (pcts (createBootableDriveSys sys env d i sz).1) ∧
    (createBootableDriveSys sys env d i sz).1.getLast? =
      some (Ev.progress 100 "Bootable drive created successfully!") := by
  obtain ⟨p1, p2, p3, p4, htr, i1, i2, i3, i4, hp1, hp2, hp3, hp4⟩ :=
    run_ok_shape sys env d i sz bv h
  constructor
  · rw [htr, pcts_bigTrace]
    have g1 : nonDec (pcts p1) ∧ ∀ x ∈ pcts p1, 5 ≤ x ∧ x ≤ 30 := by
      rcases hp1 with h1 | h1 <;> rw [h1] <;>
        exact ⟨by decide, by intro x hx; simp at hx; omega⟩
    have g2 : nonDec (pcts p2) ∧ ∀ x ∈ pcts p2, 30 ≤ x ∧ x ≤ 70 := by
      rcases hp2 with h2 | ⟨k, h2⟩ <;> rw [h2]
      · exact ⟨by decide, by intro x hx; simp at hx; omega⟩
      · exact ⟨nonDec_rep50 k, mem_rep50 k⟩
    have g3 : nonDec (pcts p3) ∧ ∀ x ∈ pcts p3, 70 ≤ x ∧ x ≤ 90 := by
      rw [hp3]
      exact ⟨by decide, by intro x hx; simp at hx; omega⟩
    have g4 : nonDec (pcts p4) ∧ ∀ x ∈ pcts p4, 90 ≤ x ∧ x ≤ 100 := by
      rw [hp4]
      exact ⟨by decide, by intro x hx; simp at hx; omega⟩
    exact nonDec_run _ _ _ _ g1.1 g1.2 g2.1 g2.2 g3.1 g3.2 g4.1 g4.2
  · rw [htr]
    exact getLast_bigTrace p1 p2 p3 p4

/-- C2 counterexample: on Linux with pkexec absent the run fails in the
Write Image stage and the percentage sequence is 0, 5, 15, 30, 0, which
is not non-decreasing: the terminal error event carries percentage 0. -/
theorem C2_counterexample :
    pcts (createBootableDriveSys "Linux" envNoPkexec "/dev/sdb" "ubuntu.iso" 8).1 =
      [0, 5, 15, 30, 0] ∧
    ¬ nonDec (pcts (createBootableDriveSys "Linux" envNoPkexec "/dev/sdb" "ubuntu.iso" 8).1) := by
  constructor
  · decide
  · decide

/-- C2 witness: the amended theorem applied to a successful Linux run. -/
theorem C2_witness :
    nonDec (pcts (createBootableDriveSys "Linux" envOk "/dev/sdb" "ubuntu.iso" 8).1) ∧
    (createBootableDriveSys "Linux" envOk "/dev/sdb" "ubuntu.iso" 8).1.getLast? =
      some (Ev.progress 100 "Bootable drive created successfully!") :=
  C2_amended "Linux" envOk "/dev/sdb" "ubuntu.iso" 8 true rfl

/-- C3: when the image path does not exist, create_bootable_drive raises
its validation FileNotFoundError (a ValidationError in the spec
taxonomy) with an empty trace: no progress event is emitted and no
stage is invoked before the failure. -/
theorem C3_iso_validation (sys : String) (env : Env) (d i : String) (sz : Int)
    (h : env.fsExists i = false) :
    createBootableDriveSys sys env d i sz =
      ([], .error (.isoNotFound i)) ∧
    specClass (.isoNotFound i) = .validationError := by
  constructor
  · unfold createBootableDriveSys createBootableDrive
    rw [h]
    rfl
  · rfl

/-- C3 witness: the theorem applied to an environment where no file
exists. -/
theorem C3_witness :
    createBootableDriveSys "Linux" envNoIso "/dev/sdb" "ubuntu.iso" 8 =
      ([], .error (.isoNotFound "ubuntu.iso")) ∧
    specClass (.isoNotFound "ubuntu.iso") = .validationError :=
  C3_iso_validation "Linux" envNoIso "/dev/sdb" "ubuntu.iso" 8 rfl

/-- C4: if the Configure Persistence stage raises, the Install
Bootloader stage is never invoked, the except handler emits the
terminal error event and the error is re-raised to the caller; the
simulated stage-three tool failure is a PersistenceSetupError in the
spec taxonomy and its message carries the diagnostic text verbatim. -/
theorem C4_stage3_failure (ip : String) (pt wt pet : List Ev) (diag : String)
    (boo : StageOut)
    (h1 : StageId.installBootloader ∉ invokes pt)
    (h2 : StageId.installBootloader ∉ invokes wt)
    (h3 : StageId.installBootloader ∉ invokes pet) :
    (createBootableDrive true ip (pt, none) (wt, none)
        (pet, some (Err.stageFail .configurePersistence diag)) boo).2 =
      .error (Err.stageFail .configurePersistence diag) ∧
    StageId.installBootloader ∉ invokes
      (createBootableDrive true ip (pt, none) (wt, none)
        (pet, some (Err.stageFail .configurePersistence diag)) boo).1 ∧
    (createBootableDrive true ip (pt, none) (wt, none)
        (pet, some (Err.stageFail .configurePersistence diag)) boo).1.getLast? =
      some (errEvent (Err.stageFail .configurePersistence diag)) ∧
    specClass (Err.stageFail .configurePersistence diag) =
      .persistenceSetupError ∧
    hasSubstr diag (Err.str (Err.stageFail .configurePersistence diag)) = true := by
  obtain ⟨bt, bo⟩ := boo
  refine ⟨rfl, ?_, ?_, rfl, ?_⟩
  · simp [createBootableDrive, invokes_append, invokes_cons_progress,
      invokes_cons_invoke, invokes_nil, errEvent, List.mem_append,
      List.mem_cons, h1, h2, h3]
  · exact cbd_error_last ip (pt, none) (wt, none)
      (pet, some (Err.stageFail .configurePersistence diag)) (bt, bo) _ rfl
  · exact hasSubstr_self diag

/-- C4 witness: the theorem applied to empty stage traces and a concrete
simulated diagnostic. -/
theorem C4_witness :
    (createBootableDrive true "ubuntu.iso" ([], none) ([], none)
        ([], some (Err.stageFail .configurePersistence "simulated diagnostic"))
        ([], none)).2 =
      .error (Err.stageFail .configurePersistence "simulated diagnostic") ∧
    StageId.installBootloader ∉ invokes
      (createBootableDrive true "ubuntu.iso" ([], none) ([], none)
        ([], some (Err.stageFail .configurePersistence "simulated diagnostic"))
        ([], none)).1 ∧
    (createBootableDrive true "ubuntu.iso" ([], none) ([], none)
        ([], some (Err.stageFail .configurePersistence "simulated diagnostic"))
        ([], none)).1.getLast? =
      some (errEvent (Err.stageFail .configurePersistence "simulated diagnostic")) ∧
    specClass (Err.stageFail .configurePersistence "simulated diagnostic") =
      .persistenceSetupError ∧
    hasSubstr "simulated diagnostic"
      (Err.str (Err.stageFail .configurePersistence "simulated diagnostic")) = true :=
  C4_stage3_failure "ubuntu.iso" [] [] [] "simulated diagnostic" ([], none)
    (by decide) (by decide) (by decide)

/-- C5: on Linux, a missing pkexec or dd makes the Write Image stage
fail with an EnvironmentError (a ToolUnavailableError in the spec
taxonomy) naming a missing tool in its message, before the copy
process is spawned: the stage trace is empty. -/
theorem C5_tool_check (env : Env) (d i : String)
    (h : env.which "pkexec" = false ∨ env.which "dd" = false) :
    ∃ t, env.which t = false ∧
      writeIsoLinux env d i = ([], some (Err.toolMissing t)) ∧
      specClass (Err.toolMissing t) = SpecError.toolUnavailableError ∧
      hasSubstr t (Err.str (Err.toolMissing t)) = true := by
  by_cases hp : env.which "pkexec" = false
  · refine ⟨"pkexec", hp, ?_, rfl, ?_⟩
    · unfold writeIsoLinux
      rw [if_pos hp]
    · decide
  · rcases h with h | hd
    · exact absurd h hp
    · refine ⟨"dd", hd, ?_, rfl, ?_⟩
      · unfold writeIsoLinux
        rw [if_neg hp, if_pos hd]
      · decide

/-- C5 witness: the theorem applied to an environment with pkexec absent
from PATH. -/
theorem C5_witness :
    ∃ t, envNoPkexec.which t = false ∧
      writeIsoLinux envNoPkexec "/dev/sdb" "ubuntu.iso" =
        ([], some (Err.toolMissing t)) ∧
      specClass (Err.toolMissing t) = SpecError.toolUnavailableError ∧
      hasSubstr t (Err.str (Err.toolMissing t)) = true :=
  C5_tool_check envNoPkexec "/dev/sdb" "ubuntu.iso" (Or.inl rfl)

/-- C6: a run in which all four stages succeed invokes the stages
exactly once each in the order Prepare, Write Image, Configure
Persistence, Install Bootloader, emits exactly one hundred-percent
event, and that terminal success event is the last event of the run. -/
theorem C6_stage_order (sys : String) (env : Env) (d i : String) (sz : Int)
    (bv : Bool)
    (h : (createBootableDriveSys sys env d i sz).2 = .ok bv) :
    invokes (createBootableDriveSys sys env d i sz).1 =
      [StageId.prepare, StageId.writeImage, StageId.configurePersistence,
       StageId.installBootloader] ∧
    (pcts (createBootableDriveSys sys env d i sz).1).count 100 = 1 ∧
    (createBootableDriveSys sys env d i sz).1.getLast? =
      some (Ev.progress 100 "Bootable drive created successfully!") := by
  obtain ⟨p1, p2, p3, p4, htr, i1, i2, i3, i4, hp1, hp2, hp3, hp4⟩ :=
    run_ok_shape sys env d i sz bv h
  refine ⟨?_, ?_, ?_⟩
  · rw [htr, invokes_bigTrace, i1, i2, i3, i4]
    rfl
  · rw [htr, pcts_bigTrace]
    have c1 : (pcts p1).count 100 = 0 := by
      rcases hp1 with h1 | h1 <;> rw [h1] <;> decide
    have c2 : (pcts p2).count 100 = 0 := by
      rcases hp2 with h2 | ⟨k, h2⟩ <;> rw [h2]
      · decide
      · simp [List.count_append, List.count_replicate]
    have c3 : (pcts p3).count 100 = 0 := by rw [hp3]; decide
    have c4 : (pcts p4).count 100 = 0 := by rw [hp4]; decide
    simp [List.count_cons, List.count_append, c1, c2, c3, c4]
  · rw [htr]
    exact getLast_bigTrace p1 p2 p3 p4

/-- C6 witness: the theorem applied to a successful macOS run. -/
theorem C6_witness :
    invokes (createBootableDriveSys "Darwin" envOk "/dev/disk2" "ubuntu.iso" 8).1 =
      [StageId.prepare, StageId.writeImage, StageId.configurePersistence,
       StageId.installBootloader] ∧
    (pcts (createBootableDriveSys "Darwin" envOk "/dev/disk2" "ubuntu.iso" 8).1).count 100 = 1 ∧
    (createBootableDriveSys "Darwin" envOk "/dev/disk2" "ubuntu.iso" 8).1.getLast? =
      some (Ev.progress 100 "Bootable drive created successfully!") :=
  C6_stage_order "Darwin" envOk "/dev/disk2" "ubuntu.iso" 8 true rfl

/-- C7: on Windows the disk number is resolved from the diskpart detail
query before the destructive script; when no number can be parsed from
the query output, the Prepare stage fails with the RuntimeError of
_get_windows_disk_number (a DeviceResolutionError in the spec taxonomy)
and spawns nothing: no destructive diskpart run happens. -/
theorem C7_disk_resolution (env : Env) (d : String) (sz : Int)
    (h : findDiskNumber (env.diskpartDetailStdout (rstripColonSlash d)) = none) :
    prepareDriveWindows env d sz = ([], some (Err.diskUnresolved d)) ∧
    specClass (Err.diskUnresolved d) = SpecError.deviceResolutionError ∧
    spawns (prepareDriveWindows env d sz).1 = [] := by
  have hg : getWindowsDiskNumber env d = .error (Err.diskUnresolved d) := by
    unfold getWindowsDiskNumber
    rw [h]
  have heq : prepareDriveWindows env d sz = ([], some (Err.diskUnresolved d)) := by
    unfold prepareDriveWindows
    rw [hg]
  exact ⟨heq, rfl, by rw [heq]; rfl⟩

/-- C7 witness: the theorem applied to a detail output with no parsable
disk number. -/
theorem C7_witness :
    prepareDriveWindows envNoDisk "D:" 8 = ([], some (Err.diskUnresolved "D:")) ∧
    specClass (Err.diskUnresolved "D:") = SpecError.deviceResolutionError ∧
    spawns (prepareDriveWindows envNoDisk "D:" 8).1 = [] :=
  C7_disk_resolution envNoDisk "D:" 8 rfl

/-- C8 counterexample: with lsblk absent from PATH, the enumeration
inside _unmount_all_partitions raises a FileNotFoundError which is not
caught, so _unmount_all_partitions does raise. -/
theorem C8_counterexample :
    (unmountAllPartitions envNoLsblk "/dev/sdb").2 ≠ none ∧
    (unmountAllPartitions envNoLsblk "/dev/sdb").2 =
      some (Err.execNotFound "lsblk") := by
  constructor
  · decide
  · decide

/-- C8 (amended): provided the enumeration tool lsblk can be launched,
_unmount_all_partitions never raises: a nonzero lsblk exit is absorbed
into an empty partition list and every unmount outcome is swallowed by
the bare except of _unmount_partition. -/
theorem C8_amended (env : Env) (d : String) (h : env.which "lsblk" = true) :
    (unmountAllPartitions env d).2 = none := by
  unfold unmountAllPartitions getLinuxPartitions
  rw [h]
  cases ho : env.lsblkStdout d <;> simp

/-- C8 witness: the amended theorem applied to an environment with lsblk
present. -/
theorem C8_witness : (unmountAllPartitions envOk "/dev/sdb").2 = none :=
  C8_amended envOk "/dev/sdb" rfl

/-- C9: for every existing file, calculate_checksum returns the SHA-256
digest of the file content as a lowercase hexadecimal string, and on
the byte content of the fixture string it returns the reference
digest. -/
theorem C9_checksum (fs : String → Option (List Nat)) (p : String)
    (bytes : List Nat) (h : fs p = some bytes) :
    ISOHandler.calculate_checksum fs p = .ok (ISOHandler.sha256Hex bytes) ∧
    (bytes = ISOHandler.strBytes "Hello, world!" →
      ISOHandler.calculate_checksum fs p =
        .ok "315f5bdb76d078c43b8ac0064e4a0164612b1fce77c869345bfc94c75894edd3") := by
  constructor
  · simp [ISOHandler.calculate_checksum, h]
  · intro hb
    subst hb
    have hv : ISOHandler.sha256Hex (ISOHandler.strBytes "Hello, world!") =
        "315f5bdb76d078c43b8ac0064e4a0164612b1fce77c869345bfc94c75894edd3" := by
      decide
    simp [ISOHandler.calculate_checksum, h, hv]

/-- C9 witness: the theorem applied to a filesystem holding the fixture
file content. -/
theorem C9_witness :
    ISOHandler.calculate_checksum
      (fun _ => some (ISOHandler.strBytes "Hello, world!")) "test_file.txt" =
      .ok "315f5bdb76d078c43b8ac0064e4a0164612b1fce77c869345bfc94c75894edd3" :=
  (C9_checksum (fun _ => some (ISOHandler.strBytes "Hello, world!"))
    "test_file.txt" (ISOHandler.strBytes "Hello, world!") rfl).2 rfl

/-- C10: create_bootable_drive never returns False: a normal return is
True, and once validation has passed every failure ends the trace with
the error-carrying progress event and re-raises the error to the
caller. -/
theorem C10_no_false (ie : Bool) (ip : String) (p w pe b : StageOut) :
    (∀ bv, (createBootableDrive ie ip p w pe b).2 = .ok bv → bv = true) ∧
    (ie = true → ∀ e, (createBootableDrive ie ip p w pe b).2 = .error e →
      (createBootableDrive ie ip p w pe b).1.getLast? = some (errEvent e)) := by
  constructor
  · intro bv hbv
    exact (cbd_ok_shape ie ip p w pe b bv hbv).2.1
  · intro hie e he
    subst hie
    exact cbd_error_last ip p w pe b e he

/-- C10 witness: the theorem applied to a concrete successful run and a
concrete failing run. -/
theorem C10_witness :
    true = true ∧
    (createBootableDrive true "ubuntu.iso" ([], none) ([], none) ([], none)
        ([], some (Err.ddFailed ""))).1.getLast? =
      some (errEvent (Err.ddFailed "")) :=
  ⟨(C10_no_false true "ubuntu.iso" ([], none) ([], none) ([], none)
      ([], none)).1 true rfl,
   (C10_no_false true "ubuntu.iso" ([], none) ([], none) ([], none)
      ([], some (Err.ddFailed ""))).2 rfl (Err.ddFailed "") rfl⟩
